import Mathlib

/-!
Verification development for the Pedestrian-accidents-GER repository.

The repository consists of two straight-line batch scripts:

* `pedestrian_accident_processor.py` — reads yearly semicolon-delimited
  accident CSV files, keeps rows whose pedestrian flag `IstFuss` equals 1,
  projects them to the columns `UJAHR`, `XGCSWGS84`, `YGCSWGS84`,
  concatenates the per-year results and writes one comma-delimited CSV.
* `generate_accident_map.py` — re-reads that CSV with a custom header
  parser, converts the two coordinate columns from comma-decimal strings
  to numbers (unparseable values become missing and their rows are
  dropped), and renders a heat map centered on the mean coordinate.

The embedding below models the data flow of both scripts.  Machine floats
are modelled as exact rationals (`ℚ`); pandas data frames are modelled as
a list of column names together with a list of rows; missing values (NaN)
are modelled with `Option`.  Exceptions (`ValueError`, `KeyError`,
`FileNotFoundError`) are modelled with `Except`/`Option` results.
-/

/-- The character `"` (double quote), written via its code point so that
string-literal scanning stays simple. -/
def dqCh : Char := Char.ofNat 34

/-- The character `'` (single quote / apostrophe). -/
def sqCh : Char := Char.ofNat 39

/-- The single-quote character as a one-character string, used by
`load_data` when stripping surrounding quotes from the header line. -/
def sqStr : String := String.mk [sqCh]

namespace Processor

/-- A raw row of a yearly input file, restricted to the columns the
script touches: the year `UJAHR`, the two WGS84 coordinate columns (kept
as raw cell strings at this stage) and the pedestrian flag `IstFuss`.
Other columns of the real files are never read by the code and are
omitted. -/
structure RawRow where
  UJAHR : Int
  XGCSWGS84 : String
  YGCSWGS84 : String
  IstFuss : Int
  deriving Repr, DecidableEq

/-- A projected output row, i.e. a raw row restricted to the columns
`['UJAHR', 'XGCSWGS84', 'YGCSWGS84']` selected on line 99 of
`pedestrian_accident_processor.py`. -/
structure OutRow where
  UJAHR : Int
  XGCSWGS84 : String
  YGCSWGS84 : String
  deriving Repr, DecidableEq

/-- A pandas data frame as produced by the processor: a list of column
names and a list of (projected) rows. -/
structure PFrameP where
  cols : List String
  rows : List OutRow
  deriving Repr, DecidableEq

/-- A yearly input file: its file name and its parsed rows. -/
structure RawFile where
  name : String
  rows : List RawRow
  deriving Repr, DecidableEq

/-- The fixed output column shape `['UJAHR', 'XGCSWGS84', 'YGCSWGS84']`. -/
def theCols : List String := ["UJAHR", "XGCSWGS84", "YGCSWGS84"]

/-- The year list `self.years_to_process = list(range(2019, 2024))`. -/
def years_to_process : List Nat := [2019, 2020, 2021, 2022, 2023]

/-- Does `pat` occur as a contiguous substring of `hay`?  Models the
Python `str(y) in file_path.name` containment test on character lists. -/
def hasSubstr (pat : List Char) : List Char → Bool
  | [] => pat.isEmpty
  | c :: rest => pat.isPrefixOf (c :: rest) || hasSubstr pat rest

/-- Year detection of `process_file` (lines 80-84): the first year of
`years_to_process` whose decimal string occurs in the file name. -/
def detectYear (name : String) : Option Nat :=
  years_to_process.find? (fun y => hasSubstr (toString y).data name.data)

/-- Projection of a raw row to the three output columns. -/
def projRow (r : RawRow) : OutRow :=
  { UJAHR := r.UJAHR, XGCSWGS84 := r.XGCSWGS84, YGCSWGS84 := r.YGCSWGS84 }

/-- Model of `process_file` (lines 68-108): determine the year from the file name
(returning `None` when no year of 2019-2023 occurs in it), filter for
rows with `IstFuss == 1`, and project to the three output columns.
Per-file read/parse exceptions are modelled away by the typed rows: the
structurally-typed `RawRow` always has the needed columns. -/
def process_file (f : RawFile) : Option PFrameP :=
  match detectYear f.name with
  | none => none
  | some _ =>
      some { cols := theCols
             rows := (f.rows.filter (fun r => r.IstFuss = 1)).map projRow }

/-- Model of `pd.concat(dataframes, ignore_index=True)` for a nonempty list of
frames that all share the same columns: the columns of the first frame,
and the row concatenation. -/
def concatFrames (d : PFrameP) (rest : List PFrameP) : PFrameP :=
  { cols := d.cols, rows := d.rows ++ (rest.map PFrameP.rows).flatten }

/-- Model of `process_all_files` (lines 110-134): process every file, keep the
results that are not `None` and not empty, concatenate them; if nothing
survives, return an empty frame with the expected column shape. -/
def process_all_files (files : List RawFile) : PFrameP :=
  let dataframes := (files.filterMap process_file).filter (fun d => !d.rows.isEmpty)
  match dataframes with
  | [] => { cols := theCols, rows := [] }
  | d :: rest => concatFrames d rest

/-- Minimal-quoting rule of `DataFrame.to_csv`: a field is wrapped in
double quotes (with embedded double quotes doubled) when it contains the
delimiter, a quote character, or a line break. -/
def renderField (s : String) : String :=
  if s.data.any (fun c => c = ',' || c = dqCh || c = Char.ofNat 10 || c = Char.ofNat 13) then
    String.mk (dqCh :: (s.data.flatMap (fun c => if c = dqCh then [dqCh, dqCh] else [c])) ++ [dqCh])
  else s

/-- Render one output row as a comma-delimited CSV line. -/
def renderRow (r : OutRow) : String :=
  String.intercalate "," [renderField (toString r.UJAHR),
                          renderField r.XGCSWGS84, renderField r.YGCSWGS84]

/-- Model of `save_output` (lines 137-151), i.e. of
`df.to_csv(output_path, index=False)`,
modelled as the list of lines of the written file — a header line with
the column names followed by one line per row. -/
def save_output (df : PFrameP) : List String :=
  String.intercalate "," (df.cols.map renderField) :: df.rows.map renderRow

end Processor

namespace Renderer

/-- A pandas data frame as loaded by the renderer: column names and rows
of raw cell strings.  The `decimal=','` dtype inference of `read_csv`
followed by `astype(str)` in `process_data` is modelled as the identity
on the raw cell string, which is extensionally equivalent (a cell such
as `52,52` parses to the float 52.52 and re-stringifies as `52.52`,
which after the comma-to-dot replacement is exactly what parsing the raw
cell after the replacement yields). -/
structure Frame where
  cols : List String
  rows : List (List String)
  deriving Repr, DecidableEq

/-- Quote-aware splitting of one CSV line on commas with quote character
`"` and doubled-quote escaping, as performed by `pd.read_csv(sep=',',
quotechar='"')`.  The first argument is the in-quotes flag, the second
the (reversed) characters of the current field. -/
def csvSplit : Bool → List Char → List Char → List String
  | false, cur, [] => [String.mk cur.reverse]
  | false, cur, c :: rest =>
      if c = ',' then String.mk cur.reverse :: csvSplit false [] rest
      else if c = dqCh then csvSplit true cur rest
      else csvSplit false (c :: cur) rest
  | true, cur, [] => [String.mk cur.reverse]
  | true, cur, [c] =>
      if c = dqCh then [String.mk cur.reverse] else [String.mk (c :: cur).reverse]
  | true, cur, c1 :: c2 :: rest =>
      if c1 = dqCh then
        if c2 = dqCh then csvSplit true (dqCh :: cur) rest
        else csvSplit false cur (c2 :: rest)
      else csvSplit true (c1 :: cur) (c2 :: rest)

/-- Parse one data line of the combined CSV into its list of fields. -/
def parseCsvLine (s : String) : List String := csvSplit false [] s.data

/-- Whitespace characters recognised by Python's `str.strip()` that can
occur in this pipeline: space, tab, line feed, carriage return. -/
def isWS (c : Char) : Bool :=
  c = Char.ofNat 32 || c = Char.ofNat 9 || c = Char.ofNat 10 || c = Char.ofNat 13

/-- Model of `str.strip()` on a character list: drop whitespace at both ends. -/
def chTrim (cs : List Char) : List Char :=
  ((cs.dropWhile isWS).reverse.dropWhile isWS).reverse

/-- Model of `str.split(sep)` on a character list (single-character separator):
the accumulator holds the current piece reversed. -/
def chSplit (sep : Char) : List Char → List Char → List (List Char)
  | cur, [] => [cur.reverse]
  | cur, c :: rest =>
      if c = sep then cur.reverse :: chSplit sep [] rest
      else chSplit sep (c :: cur) rest

/-- Model of `load_data` (lines 6-31 of `generate_accident_map.py`): read the
first line, strip it, remove a surrounding pair of single quotes when
present, split on commas and strip each piece to obtain the column
names; then parse every remaining line as a data row under those names
(`skiprows=1, names=column_names, sep=',', quotechar='"'`).  The file is
modelled as its list of lines. -/
def load_data (lines : List String) : Frame :=
  let header0 := chTrim (lines.headD "").data
  let header1 :=
    if header0.head? = some sqCh ∧ header0.getLast? = some sqCh then
      (header0.drop 1).dropLast
    else header0
  let column_names := (chSplit ',' [] header1).map (fun cs => String.mk (chTrim cs))
  { cols := column_names, rows := (lines.drop 1).map parseCsvLine }

/-- Value of a fractional-digit string: `fracVal ['5', '2'] = 52/100`.
Fails on any non-digit character. -/
def fracVal : List Char → Option ℚ
  | [] => some 0
  | c :: rest =>
      if c.isDigit then (fracVal rest).map (fun q => ((c.toNat - 48 : ℚ) + q) / 10)
      else none

/-- Unsigned decimal parser with separator character `sep`: a digit run,
optionally followed by `sep` and a digit run, with at least one digit in
total.  `acc` is the integer part accumulated so far and `seen` records
whether a digit has been read. -/
def decParse (sep : Char) : ℚ → Bool → List Char → Option ℚ
  | acc, seen, [] => if seen then some acc else none
  | acc, seen, c :: rest =>
      if c.isDigit then decParse sep (10 * acc + (c.toNat - 48 : ℚ)) true rest
      else if c = sep then
        if seen || !rest.isEmpty then (fracVal rest).map (fun f => acc + f) else none
      else none

/-- Signed decimal parser with separator `sep`: an optional leading sign
followed by an unsigned decimal number. -/
def decParseSigned (sep : Char) (cs : List Char) : Option ℚ :=
  match cs with
  | [] => none
  | c :: rest =>
      if c = '-' then (decParse sep 0 false rest).map Neg.neg
      else if c = '+' then decParse sep 0 false rest
      else decParse sep 0 false (c :: rest)

/-- Models `pd.to_numeric(·, errors='coerce')` on a cell string: parse
as a dot-decimal number, yielding the missing marker (`none`, i.e. NaN)
on failure.  Exotic accepted spellings of the real parser (exponents,
`inf`/`nan`, surrounding whitespace) are not modelled; the pipeline's
cells are plain decimal digit strings. -/
def to_numeric (s : String) : Option ℚ := decParseSigned '.' s.data

/-- The comma-to-dot character replacement. -/
def swapCD (c : Char) : Char := if c = ',' then '.' else c

/-- Model of `str.replace(',', '.')` — replace every comma with a dot. -/
def commaToDot (s : String) : String := String.mk (s.data.map swapCD)

/-- The per-cell conversion of `process_data` (lines 47-48): force to
string, replace commas with dots, coerce to numeric (NaN on failure). -/
def convertCell (s : String) : Option ℚ := to_numeric (commaToDot s)

/-- Parser written to the spec's words, for comparison with the code's
conversion: a coordinate string in comma-decimal notation (an optional
sign, an integer digit run, a comma, a fractional digit run, e.g.
`52,52`) and its dot-decimal numeric value. -/
def specCommaDecimal (s : String) : Option ℚ := decParseSigned ',' s.data

/-- A processed row after `process_data`: the cells of all columns other
than the two coordinate columns, in their original order, together with
the two numeric coordinates (renamed `Longitude`/`Latitude`). -/
structure NRow where
  others : List String
  Longitude : ℚ
  Latitude : ℚ
  deriving Repr, DecidableEq

/-- A frame after `process_data`: the (renamed) column names and the
processed rows. -/
structure NFrame where
  cols : List String
  rows : List NRow
  deriving Repr, DecidableEq

/-- The non-coordinate cells of a row, in original order, given the
positions `xi` and `yi` of the two coordinate columns. -/
def dropCoordCells (xi yi : Nat) (r : List String) : List String :=
  (r.enum.filterMap (fun p => if p.1 = xi || p.1 = yi then none else some p.2))

/-- Convert one row: both coordinate cells must be present and parse to
a number after comma-to-dot replacement, otherwise the row is dropped
(this is the `dropna(subset=['XGCSWGS84', 'YGCSWGS84'])` of line 51). -/
def convRow (xi yi : Nat) (r : List String) : Option NRow :=
  match (r.get? xi).bind convertCell, (r.get? yi).bind convertCell with
  | some x, some y => some { others := dropCoordCells xi yi r, Longitude := x, Latitude := y }
  | _, _ => none

/-- Column renaming of line 57: `XGCSWGS84 → Longitude`,
`YGCSWGS84 → Latitude`, all other names unchanged. -/
def renameCol (c : String) : String :=
  if c = "XGCSWGS84" then "Longitude" else if c = "YGCSWGS84" then "Latitude" else c

/-- Model of `process_data` (lines 33-58): convert the two coordinate columns to
numeric (comma-decimal tolerated, unparseable cells become missing),
drop rows with a missing coordinate, and rename the coordinate columns.
Returns `none` (modelling the uncaught `KeyError`) when a coordinate
column is absent. -/
def process_data (df : Frame) : Option NFrame :=
  match df.cols.indexOf? "XGCSWGS84", df.cols.indexOf? "YGCSWGS84" with
  | some xi, some yi =>
      some { cols := df.cols.map renameCol
             rows := df.rows.filterMap (convRow xi yi) }
  | _, _ => none

/-- Model of `Series.mean()`: the arithmetic mean, NaN (`none`) on an empty
column. -/
def meanOpt (xs : List ℚ) : Option ℚ :=
  if xs.isEmpty then none else some (xs.sum / xs.length)

/-- The heat-map artifact: the map center, the `(latitude, longitude)`
heat data, the zoom level and the heat radius. -/
structure Heatmap where
  center : ℚ × ℚ
  heat_data : List (ℚ × ℚ)
  zoom_start : Nat
  radius : Nat
  deriving Repr, DecidableEq

/-- Model of `create_heatmap` (lines 60-78): compute the mean latitude and mean
longitude; raise `ValueError` when either is NaN; otherwise build the
map centered on the means with the heat layer over all rows. -/
def create_heatmap (df : NFrame) : Except String Heatmap :=
  match meanOpt (df.rows.map NRow.Latitude), meanOpt (df.rows.map NRow.Longitude) with
  | some lat_mean, some lon_mean =>
      Except.ok { center := (lat_mean, lon_mean)
                  heat_data := df.rows.map (fun r => (r.Latitude, r.Longitude))
                  zoom_start := 12
                  radius := 10 }
  | _, _ => Except.error "The computed map center contains NaNs. Check coordinate conversion."

/-- Failure modes of the renderer's `main`. -/
inductive RunError where
  | fileNotFound
  | keyError
  | valueError (msg : String)
  deriving Repr, DecidableEq

/-- Model of `main` (lines 80-94): fail with `FileNotFoundError` when the input
file is absent (`none`); otherwise load and process the data, raise
`ValueError` when no valid rows remain, and otherwise create the heat
map. -/
def main (file : Option (List String)) : Except RunError Heatmap :=
  match file with
  | none => Except.error RunError.fileNotFound
  | some lines =>
      match process_data (load_data lines) with
      | none => Except.error RunError.keyError
      | some df =>
          if df.rows.isEmpty then
            Except.error (RunError.valueError
              "No valid data rows after processing. Check the CSV file format and conversion logic.")
          else
            match create_heatmap df with
            | Except.ok hm => Except.ok hm
            | Except.error msg => Except.error (RunError.valueError msg)

end Renderer

/-- A cell string free of line breaks: the domain on which modelling the
written CSV file as one line per row is faithful. -/
def lineSafe (s : String) : Bool :=
  s.data.all (fun c => !(c = Char.ofNat 10 || c = Char.ofNat 13))

namespace Renderer

lemma swapCD_of_isDigit (c : Char) (h : c.isDigit = true) : swapCD c = c := by
  unfold swapCD
  rw [if_neg]
  intro e
  subst e
  exact absurd h (by decide)

lemma fracVal_map_swapCD (cs : List Char) (f : ℚ) (h : fracVal cs = some f) :
    fracVal (cs.map swapCD) = some f := by
  induction cs generalizing f with
  | nil => rw [List.map_nil]; exact h
  | cons c rest ih =>
      by_cases hc : c.isDigit
      · cases hfr : fracVal rest with
        | none => rw [fracVal, if_pos hc, hfr] at h; exact absurd h (by simp)
        | some f0 =>
            rw [fracVal, if_pos hc, hfr] at h
            rw [List.map_cons, fracVal, swapCD_of_isDigit c hc, if_pos hc, ih f0 hfr]
            exact h
      · rw [fracVal, if_neg hc] at h
        exact absurd h (by simp)

lemma isEmpty_map_swapCD (cs : List Char) :
    (cs.map swapCD).isEmpty = cs.isEmpty := by
  cases cs <;> simp

lemma decParse_map_swapCD (cs : List Char) (acc : ℚ) (seen : Bool) (q : ℚ)
    (h : decParse ',' acc seen cs = some q) :
    decParse '.' acc seen (cs.map swapCD) = some q := by
  induction cs generalizing acc seen with
  | nil => simpa [decParse] using h
  | cons c rest ih =>
      by_cases hc : c.isDigit
      · rw [decParse, if_pos hc] at h
        rw [List.map_cons, decParse, swapCD_of_isDigit c hc, if_pos hc]
        exact ih _ _ h
      · by_cases hcm : c = ','
        · subst hcm
          rw [decParse, if_neg hc, if_pos rfl] at h
          have hsw : swapCD ',' = '.' := by decide
          rw [List.map_cons, decParse, hsw]
          rw [show (Char.isDigit '.') = false by decide]
          simp only [Bool.false_eq_true, if_false, if_pos rfl]
          by_cases hcond : (seen || !rest.isEmpty) = true
          · rw [if_pos hcond] at h
            rw [isEmpty_map_swapCD, if_pos hcond]
            cases hfr : fracVal rest with
            | none => rw [hfr] at h; exact absurd h (by simp)
            | some f0 =>
                rw [hfr] at h
                simp only [if_true]
                rw [fracVal_map_swapCD rest f0 hfr]
                exact h
          · rw [if_neg hcond] at h
            exact absurd h (by simp)
        · rw [decParse, if_neg hc, if_neg hcm] at h
          exact absurd h (by simp)

lemma decParseSigned_map_swapCD (cs : List Char) (q : ℚ)
    (h : decParseSigned ',' cs = some q) :
    decParseSigned '.' (cs.map swapCD) = some q := by
  cases cs with
  | nil => exact absurd h (by simp [decParseSigned])
  | cons c rest =>
      by_cases hm : c = '-'
      · subst hm
        rw [decParseSigned, if_pos rfl] at h
        rw [List.map_cons, show swapCD '-' = '-' by decide, decParseSigned, if_pos rfl]
        cases hd : decParse ',' 0 false rest with
        | none => rw [hd] at h; exact absurd h (by simp)
        | some q0 =>
            rw [hd] at h
            rw [decParse_map_swapCD rest 0 false q0 hd]
            exact h
      · by_cases hp : c = '+'
        · subst hp
          rw [decParseSigned, if_neg (by decide), if_pos rfl] at h
          rw [List.map_cons, show swapCD '+' = '+' by decide, decParseSigned,
            if_neg (by decide), if_pos rfl]
          exact decParse_map_swapCD rest 0 false q h
        · rw [decParseSigned, if_neg hm, if_neg hp] at h
          have hm2 : swapCD c ≠ '-' := by
            unfold swapCD; split
            · decide
            · exact hm
          have hp2 : swapCD c ≠ '+' := by
            unfold swapCD; split
            · decide
            · exact hp
          rw [List.map_cons, decParseSigned, if_neg hm2, if_neg hp2]
          exact decParse_map_swapCD (c :: rest) 0 false q h

lemma convertCell_spec (s : String) (q : ℚ) (h : specCommaDecimal s = some q) :
    convertCell s = some q :=
  decParseSigned_map_swapCD s.data q h

lemma specCommaDecimal_5252 : specCommaDecimal "52,52" = some (1313 / 25 : ℚ) := by
  simp [specCommaDecimal, decParseSigned, decParse, fracVal]
  norm_num

lemma convRow_others (xi yi : Nat) (r : List String) (nr : NRow)
    (h : convRow xi yi r = some nr) : nr.others = dropCoordCells xi yi r := by
  unfold convRow at h
  cases hx : (r.get? xi).bind convertCell with
  | none => rw [hx] at h; exact absurd h (by simp)
  | some x =>
      cases hy : (r.get? yi).bind convertCell with
      | none => rw [hx, hy] at h; exact absurd h (by simp)
      | some y =>
          rw [hx, hy] at h
          injection h with h
          rw [← h]

lemma convRow_none_iff (xi yi : Nat) (r : List String) :
    convRow xi yi r = none ↔
      ((r.get? xi).bind convertCell = none ∨ (r.get? yi).bind convertCell = none) := by
  unfold convRow
  cases (r.get? xi).bind convertCell <;> cases (r.get? yi).bind convertCell <;> simp

end Renderer

lemma filterMap_map_eq_filter_map {α β γ : Type} (l : List α) (f : α → Option β)
    (g : β → γ) (k : α → γ) (hfg : ∀ a b, f a = some b → g b = k a) :
    (l.filterMap f).map g = (l.filter (fun a => (f a).isSome)).map k := by
  induction l with
  | nil => rfl
  | cons a l ih =>
      cases hfa : f a with
      | none => simp [List.filterMap_cons, List.filter_cons, hfa, ih]
      | some b => simp [List.filterMap_cons, List.filter_cons, hfa, ih, hfg a b hfa]

namespace Processor

lemma sum_filter_nonempty (l : List PFrameP) :
    (((l.filter (fun d => !d.rows.isEmpty)).map (fun d => d.rows.length)).sum : Nat)
      = ((l.map (fun d => d.rows.length)).sum : Nat) := by
  induction l with
  | nil => rfl
  | cons d l ih =>
      by_cases hd : d.rows.isEmpty
      · have hlen : d.rows.length = 0 := by
          rw [List.length_eq_zero]
          exact List.isEmpty_iff.mp hd
        simp [List.filter_cons, hd, ih, hlen]
      · simp [List.filter_cons, hd, ih]

end Processor

namespace Renderer

lemma meanOpt_of_ne_nil (xs : List ℚ) (h : xs ≠ []) :
    meanOpt xs = some (xs.sum / xs.length) := by
  unfold meanOpt
  rw [if_neg]
  simpa [List.isEmpty_iff] using h

end Renderer

/-! ## Claim theorems -/

/-- Claim C1: for every input table and every row in it, a row appears in
the output of `process_file` only if its pedestrian-involvement flag
column `IstFuss` equals 1; no row with any other flag value appears in
the filtered result. -/
theorem process_file_only_pedestrian_rows (f : Processor.RawFile) (df : Processor.PFrameP)
    (h : Processor.process_file f = some df) :
    ∀ r ∈ df.rows, ∃ raw ∈ f.rows, raw.IstFuss = 1 ∧ r = Processor.projRow raw := by
  unfold Processor.process_file at h
  cases hd : Processor.detectYear f.name with
  | none => rw [hd] at h; exact absurd h (by simp)
  | some y =>
      rw [hd] at h
      injection h with h
      subst h
      intro r hr
      rcases List.mem_map.mp hr with ⟨raw, hraw, hproj⟩
      rcases List.mem_filter.mp hraw with ⟨hmem, hflag⟩
      exact ⟨raw, hmem, of_decide_eq_true hflag, hproj.symm⟩

/-- Witness for C1 at a concrete two-row file: the surviving output row
comes from the unique input row whose flag is 1. -/
theorem process_file_only_pedestrian_rows_witness :
    ∃ raw ∈ ([⟨2019, "52,52", "13,4", 1⟩, ⟨2019, "9,0", "48,1", 0⟩] :
        List Processor.RawRow),
      raw.IstFuss = 1 ∧
        (⟨2019, "52,52", "13,4"⟩ : Processor.OutRow) = Processor.projRow raw :=
  process_file_only_pedestrian_rows
    ⟨"Unfallorte2019_LinRef.csv", [⟨2019, "52,52", "13,4", 1⟩, ⟨2019, "9,0", "48,1", 0⟩]⟩
    ⟨Processor.theCols, [⟨2019, "52,52", "13,4"⟩]⟩ (by decide)
    ⟨2019, "52,52", "13,4"⟩ (by decide)

/-- Claim C5: for every run of `process_all_files`, the row count of the
combined output equals the sum of the per-year filtered row counts of
the files that were processed successfully; concatenation adds,
duplicates and loses nothing. -/
theorem process_all_files_preserves_row_count (files : List Processor.RawFile) :
    (Processor.process_all_files files).rows.length
      = ((files.filterMap Processor.process_file).map (fun d => d.rows.length)).sum := by
  unfold Processor.process_all_files
  generalize files.filterMap Processor.process_file = l
  cases hm : l.filter (fun d => !d.rows.isEmpty) with
  | nil =>
      rw [← Processor.sum_filter_nonempty l, hm]
      simp
  | cons d rest =>
      rw [← Processor.sum_filter_nonempty l, hm]
      simp only [Processor.concatFrames, List.length_append, List.length_flatten,
        List.map_map, List.map_cons, List.sum_cons]
      rfl

/-- Claim C8: when no input file yields any pedestrian rows,
`process_all_files` returns an empty result with exactly the expected
column shape, and `save_output` writes the empty, correctly-shaped file
(just the header line) rather than failing. -/
theorem process_all_files_empty_shape (files : List Processor.RawFile)
    (h : ∀ d ∈ files.filterMap Processor.process_file, d.rows = []) :
    Processor.process_all_files files = ⟨Processor.theCols, []⟩ ∧
      Processor.save_output (Processor.process_all_files files)
        = ["UJAHR,XGCSWGS84,YGCSWGS84"] := by
  have hfil : (files.filterMap Processor.process_file).filter
      (fun d => !d.rows.isEmpty) = [] := by
    rw [List.filter_eq_nil_iff]
    intro d hd
    rw [h d hd]
    simp
  have hmain : Processor.process_all_files files = ⟨Processor.theCols, []⟩ := by
    unfold Processor.process_all_files
    rw [hfil]
  exact ⟨hmain, by rw [hmain]; rfl⟩

/-- Witness for C8: a single file whose only row has flag 0 produces the
empty frame with the expected columns and a header-only output file. -/
theorem process_all_files_empty_shape_witness :
    Processor.process_all_files [⟨"Unfallorte2019_LinRef.csv", [⟨2019, "9,0", "48,1", 0⟩]⟩]
        = ⟨Processor.theCols, []⟩ ∧
      Processor.save_output (Processor.process_all_files
          [⟨"Unfallorte2019_LinRef.csv", [⟨2019, "9,0", "48,1", 0⟩]⟩])
        = ["UJAHR,XGCSWGS84,YGCSWGS84"] :=
  process_all_files_empty_shape _ (by decide)

/-- Claim C2: writing a combined dataset with `save_output` and
re-reading the written file with the renderer's custom header parser
`load_data` yields a table with the same column names and the same row
count.  The hypotheses restrict to the datasets the pipeline produces:
the combined column shape, and cells free of line breaks (the domain on
which the line-per-row file model is faithful). -/
theorem save_output_load_data_round_trip (df : Processor.PFrameP)
    (hcols : df.cols = Processor.theCols)
    (hsafe : ∀ r ∈ df.rows, lineSafe r.XGCSWGS84 = true ∧ lineSafe r.YGCSWGS84 = true) :
    (Renderer.load_data (Processor.save_output df)).cols = df.cols ∧
      (Renderer.load_data (Processor.save_output df)).rows.length = df.rows.length := by
  obtain ⟨cols, rows⟩ := df
  simp only at hcols
  subst hcols
  refine ⟨rfl, ?_⟩
  simp [Renderer.load_data, Processor.save_output]

/-- Witness for C2 at a concrete two-row dataset with comma-decimal
cells (which `to_csv` must quote): the column names and the row count
survive the round trip. -/
theorem save_output_load_data_round_trip_witness :
    (Renderer.load_data (Processor.save_output
        ⟨Processor.theCols, [⟨2019, "52,52", "13,4"⟩, ⟨2020, "abc", "48,1"⟩]⟩)).cols
      = (⟨Processor.theCols, [⟨2019, "52,52", "13,4"⟩, ⟨2020, "abc", "48,1"⟩]⟩ :
          Processor.PFrameP).cols ∧
    (Renderer.load_data (Processor.save_output
        ⟨Processor.theCols, [⟨2019, "52,52", "13,4"⟩, ⟨2020, "abc", "48,1"⟩]⟩)).rows.length
      = (⟨Processor.theCols, [⟨2019, "52,52", "13,4"⟩, ⟨2020, "abc", "48,1"⟩]⟩ :
          Processor.PFrameP).rows.length :=
  save_output_load_data_round_trip
    ⟨Processor.theCols, [⟨2019, "52,52", "13,4"⟩, ⟨2020, "abc", "48,1"⟩]⟩
    rfl (by decide)

/-- Claim C9: `load_data` parses the first line by stripping surrounding
quote characters (after whitespace stripping) and splitting the result
on commas to recover the column names, and parses every remaining line
as a row under those names with the quote-aware comma splitter (the
comma-decimal convention is applied downstream, on the raw cell
strings). -/
theorem load_data_header_and_rows (h : String) (t : List String) :
    (Renderer.load_data (h :: t)).cols
        = ((Renderer.chSplit ',' []
            (if (Renderer.chTrim h.data).head? = some sqCh ∧
                (Renderer.chTrim h.data).getLast? = some sqCh
             then ((Renderer.chTrim h.data).drop 1).dropLast
             else Renderer.chTrim h.data)).map (fun cs => String.mk (Renderer.chTrim cs))) ∧
      (Renderer.load_data (h :: t)).rows = t.map Renderer.parseCsvLine :=
  ⟨rfl, rfl⟩

/-- Claim C3: a coordinate string in comma-decimal notation is converted
by `process_data` to the corresponding dot-decimal numeric value (for
example `52,52` to 52.52 = 1313/25); a value that is not numeric after
comma-to-dot replacement becomes the missing marker; and every row with
a missing value in either coordinate column is dropped from the
result. -/
theorem process_data_converts_comma_decimals :
    (∀ s q, Renderer.specCommaDecimal s = some q → Renderer.convertCell s = some q) ∧
      Renderer.convertCell "52,52" = some (1313 / 25 : ℚ) ∧
      (∀ s, Renderer.convertCell s = none ↔
        Renderer.to_numeric (Renderer.commaToDot s) = none) ∧
      (∀ (df : Renderer.Frame) (xi yi : Nat),
        df.cols.indexOf? "XGCSWGS84" = some xi → df.cols.indexOf? "YGCSWGS84" = some yi →
        ∃ nf, Renderer.process_data df = some nf ∧
          nf.rows = df.rows.filterMap (Renderer.convRow xi yi) ∧
          ∀ r, Renderer.convRow xi yi r = none ↔
            ((r.get? xi).bind Renderer.convertCell = none ∨
              (r.get? yi).bind Renderer.convertCell = none)) := by
  refine ⟨Renderer.convertCell_spec,
    Renderer.convertCell_spec "52,52" (1313 / 25 : ℚ) Renderer.specCommaDecimal_5252,
    fun s => Iff.rfl, ?_⟩
  intro df xi yi hx hy
  refine ⟨⟨df.cols.map Renderer.renameCol, df.rows.filterMap (Renderer.convRow xi yi)⟩,
    ?_, rfl, Renderer.convRow_none_iff xi yi⟩
  unfold Renderer.process_data
  rw [hx, hy]

/-- Witness for C3: the spec-side comma-decimal parse of `52,52`
transfers to the code's conversion, giving exactly 52.52. -/
theorem process_data_converts_comma_decimals_witness :
    Renderer.convertCell "52,52" = some (1313 / 25 : ℚ) :=
  process_data_converts_comma_decimals.1 "52,52" (1313 / 25 : ℚ)
    Renderer.specCommaDecimal_5252

/-- Claim C4: for every non-empty post-filter dataset, the map center
computed by `create_heatmap` is exactly the arithmetic mean of the
latitude values and of the longitude values (floats are modelled as
exact rationals). -/
theorem create_heatmap_center_is_mean (df : Renderer.NFrame) (h : df.rows ≠ []) :
    Renderer.create_heatmap df = Except.ok
      { center := ((df.rows.map Renderer.NRow.Latitude).sum / (df.rows.length : ℚ),
                   (df.rows.map Renderer.NRow.Longitude).sum / (df.rows.length : ℚ)),
        heat_data := df.rows.map (fun r => (r.Latitude, r.Longitude)),
        zoom_start := 12, radius := 10 } := by
  have h1 : df.rows.map Renderer.NRow.Latitude ≠ [] := by
    simpa [List.map_eq_nil_iff] using h
  have h2 : df.rows.map Renderer.NRow.Longitude ≠ [] := by
    simpa [List.map_eq_nil_iff] using h
  unfold Renderer.create_heatmap
  rw [Renderer.meanOpt_of_ne_nil _ h1, Renderer.meanOpt_of_ne_nil _ h2]
  simp [List.length_map]

/-- Witness for C4 at a dataset of three rows with known coordinates:
the center is exactly the componentwise mean (53, 14). -/
theorem create_heatmap_center_is_mean_witness :
    Renderer.create_heatmap ⟨["UJAHR", "Longitude", "Latitude"],
        [⟨["2019"], 13, 52⟩, ⟨["2019"], 14, 53⟩, ⟨["2020"], 15, 54⟩]⟩
      = Except.ok ⟨(53, 14), [(52, 13), (53, 14), (54, 15)], 12, 10⟩ := by
  rw [create_heatmap_center_is_mean ⟨["UJAHR", "Longitude", "Latitude"],
    [⟨["2019"], 13, 52⟩, ⟨["2019"], 14, 53⟩, ⟨["2020"], 15, 54⟩]⟩ (by simp)]
  simp
  norm_num

/-- Claim C7: whenever the mean latitude or mean longitude is undefined
(NaN, modelled as `none`), `create_heatmap` fails with the validation
error instead of building a map. -/
theorem create_heatmap_errors_on_nan_mean (df : Renderer.NFrame)
    (h : Renderer.meanOpt (df.rows.map Renderer.NRow.Latitude) = none ∨
         Renderer.meanOpt (df.rows.map Renderer.NRow.Longitude) = none) :
    Renderer.create_heatmap df = Except.error
      "The computed map center contains NaNs. Check coordinate conversion." := by
  unfold Renderer.create_heatmap
  rcases h with h | h
  · rw [h]
  · rw [h]
    cases Renderer.meanOpt (df.rows.map Renderer.NRow.Latitude) <;> rfl

/-- Witness for C7: the empty processed frame has NaN means, and
`create_heatmap` raises the validation error on it. -/
theorem create_heatmap_errors_on_nan_mean_witness :
    Renderer.create_heatmap ⟨["UJAHR", "Longitude", "Latitude"], []⟩
      = Except.error "The computed map center contains NaNs. Check coordinate conversion." :=
  create_heatmap_errors_on_nan_mean ⟨["UJAHR", "Longitude", "Latitude"], []⟩
    (Or.inl (by decide))

/-- Claim C6: if the dataset is empty after coordinate conversion and
dropping of missing-coordinate rows, `main` fails with the validation
error and produces no map artifact. -/
theorem main_raises_on_empty_processed_data (lines : List String) (df : Renderer.NFrame)
    (h1 : Renderer.process_data (Renderer.load_data lines) = some df)
    (h2 : df.rows = []) :
    Renderer.main (some lines) = Except.error (Renderer.RunError.valueError
      "No valid data rows after processing. Check the CSV file format and conversion logic.") := by
  simp [Renderer.main, h1, h2]

/-- Witness for C6: a file whose only data row has unparseable
coordinates leaves an empty processed frame, and `main` raises the
validation error on it. -/
theorem main_raises_on_empty_processed_data_witness :
    Renderer.main (some ["UJAHR,XGCSWGS84,YGCSWGS84", "2019,abc,def"])
      = Except.error (Renderer.RunError.valueError
        "No valid data rows after processing. Check the CSV file format and conversion logic.") :=
  main_raises_on_empty_processed_data ["UJAHR,XGCSWGS84,YGCSWGS84", "2019,abc,def"]
    ⟨["UJAHR", "Longitude", "Latitude"], []⟩ (by decide) rfl

/-- Claim C10: `process_data` leaves the cells of all columns other than
the two coordinate columns unchanged in every surviving row, and the
surviving rows form a subsequence of the input rows in their original
order. -/
theorem process_data_preserves_other_columns (df : Renderer.Frame) (xi yi : Nat)
    (hx : df.cols.indexOf? "XGCSWGS84" = some xi)
    (hy : df.cols.indexOf? "YGCSWGS84" = some yi) :
    ∃ nf, Renderer.process_data df = some nf ∧
      ∃ survivors, List.Sublist survivors df.rows ∧
        nf.rows.map Renderer.NRow.others = survivors.map (Renderer.dropCoordCells xi yi) ∧
        nf.rows.length = survivors.length := by
  have hmapeq : ((df.rows.filterMap (Renderer.convRow xi yi)).map Renderer.NRow.others)
      = (df.rows.filter (fun r => (Renderer.convRow xi yi r).isSome)).map
          (Renderer.dropCoordCells xi yi) :=
    filterMap_map_eq_filter_map df.rows (Renderer.convRow xi yi) Renderer.NRow.others
      (Renderer.dropCoordCells xi yi) (fun r nr h => Renderer.convRow_others xi yi r nr h)
  refine ⟨⟨df.cols.map Renderer.renameCol, df.rows.filterMap (Renderer.convRow xi yi)⟩,
    ?_, df.rows.filter (fun r => (Renderer.convRow xi yi r).isSome),
    List.filter_sublist _, hmapeq, ?_⟩
  · unfold Renderer.process_data
    rw [hx, hy]
  · calc (df.rows.filterMap (Renderer.convRow xi yi)).length
        = ((df.rows.filterMap (Renderer.convRow xi yi)).map Renderer.NRow.others).length :=
          (List.length_map _ _).symm
      _ = ((df.rows.filter (fun r => (Renderer.convRow xi yi r).isSome)).map
            (Renderer.dropCoordCells xi yi)).length := by rw [hmapeq]
      _ = (df.rows.filter (fun r => (Renderer.convRow xi yi r).isSome)).length :=
          List.length_map _ _

/-- Witness for C10 at a concrete frame with one surviving and one
dropped row. -/
theorem process_data_preserves_other_columns_witness :
    ∃ nf, Renderer.process_data ⟨["UJAHR", "XGCSWGS84", "YGCSWGS84"],
        [["2019", "52,52", "13,4"], ["2020", "abc", "48,1"]]⟩ = some nf ∧
      ∃ survivors,
        List.Sublist survivors
          (⟨["UJAHR", "XGCSWGS84", "YGCSWGS84"],
            [["2019", "52,52", "13,4"], ["2020", "abc", "48,1"]]⟩ : Renderer.Frame).rows ∧
        nf.rows.map Renderer.NRow.others = survivors.map (Renderer.dropCoordCells 1 2) ∧
        nf.rows.length = survivors.length :=
  process_data_preserves_other_columns
    ⟨["UJAHR", "XGCSWGS84", "YGCSWGS84"],
      [["2019", "52,52", "13,4"], ["2020", "abc", "48,1"]]⟩ 1 2 (by decide) (by decide)
